import Mathlib

/-!
Formal model of the Ai-Meta-Deta image-metadata application
(`src/App.tsx`, `src/services/geminiService.ts`, `src/services/imageService.ts`,
`src/types.ts`), together with theorems about its error handling,
orchestration and resource behaviour.

External runtime facilities (the Gemini client, `JSON.parse`,
`exifr.parse`, `FileReader`, the canvas API, `Date.now`,
`URL.createObjectURL` / `URL.revokeObjectURL`) are modelled by making
their outcomes explicit inputs of the embedded functions; everything the
repository's own code does with those outcomes is translated directly.
-/

namespace AiMetaData

/-! ## Data model (`src/types.ts`) -/

/-- The `authenticity` sub-record of `AIAnalysisResult` (types.ts). -/
structure Authenticity where
  isLikelyEdited : Bool
  reason : String
  score : Rat
deriving Repr, DecidableEq

/-- The `AIAnalysisResult` interface (types.ts): the shape a fully valid
service response is declared to have. -/
structure AIAnalysisResult where
  objects : List String
  peopleCount : Int
  sceneType : String
  imageCategory : String
  dominantColors : List String
  faceEmotion : String
  isSafe : Bool
  authenticity : Authenticity
  ocrText : String
deriving Repr, DecidableEq

/-- Runtime view of the `authenticity` field after `JSON.parse` with the
unchecked `as AIAnalysisResult` cast (geminiService.ts:98): every field may
be absent, since no runtime validation is performed. -/
structure ParsedAuthenticity where
  isLikelyEdited : Option Bool
  reason : Option String
  score : Option Rat
deriving Repr, DecidableEq

/-- Runtime view of a parsed analysis object after the unchecked
`as AIAnalysisResult` cast (geminiService.ts:98): each required field may be
absent because `JSON.parse` performs no shape validation. -/
structure ParsedAnalysis where
  objects : Option (List String)
  peopleCount : Option Int
  sceneType : Option String
  imageCategory : Option String
  dominantColors : Option (List String)
  faceEmotion : Option String
  isSafe : Option Bool
  authenticity : Option ParsedAuthenticity
  ocrText : Option String
deriving Repr, DecidableEq

/-- Injection of a fully populated `AIAnalysisResult` into the runtime view. -/
def toParsed (r : AIAnalysisResult) : ParsedAnalysis :=
  { objects := some r.objects
    peopleCount := some r.peopleCount
    sceneType := some r.sceneType
    imageCategory := some r.imageCategory
    dominantColors := some r.dominantColors
    faceEmotion := some r.faceEmotion
    isSafe := some r.isSafe
    authenticity := some
      { isLikelyEdited := some r.authenticity.isLikelyEdited
        reason := some r.authenticity.reason
        score := some r.authenticity.score }
    ocrText := some r.ocrText }

/-! ## AnalysisClient (`src/services/geminiService.ts`) -/

/-- The fallback literal returned by the `catch` block of
`analyzeImageWithGemini` (geminiService.ts:107-121). -/
def fallbackResult : AIAnalysisResult :=
  { objects := []
    peopleCount := 0
    sceneType := "Unknown"
    imageCategory := "Other"
    dominantColors := []
    faceEmotion := "None"
    isSafe := true
    authenticity :=
      { isLikelyEdited := false
        reason := "Analysis failed"
        score := 0 }
    ocrText := "" }

/-- Runtime view of the fallback record. -/
def fallbackAnalysis : ParsedAnalysis := toParsed fallbackResult

/-- `getAiClient` (geminiService.ts:4-10): reads `process.env.API_KEY`
(modelled as an `Option String`; the JavaScript `!apiKey` guard also
rejects the empty string) and throws when it is missing. -/
def getAiClient (apiKey : Option String) : Except String Unit :=
  match apiKey with
  | none => Except.error "API Key not found in environment variables"
  | some k =>
    if k = "" then Except.error "API Key not found in environment variables"
    else Except.ok ()

/-- Outcome of the external `ai.models.generateContent` round trip combined
with the external `JSON.parse` applied to `response.text`
(geminiService.ts:19-101). The repository treats both as external calls, so
their result is an input of the model:
* `throwErr`: the awaited service call (or client library) threw;
* `noText`: the response carried no usable text (`response.text` falsy);
* `unparseable`: `response.text` was present but `JSON.parse` threw;
* `parsed`: `JSON.parse` succeeded, yielding this runtime value. -/
inductive ServiceOutcome where
  | throwErr (msg : String)
  | noText
  | unparseable (text : String)
  | parsed (value : ParsedAnalysis)
deriving Repr, DecidableEq

/-- `analyzeImageWithGemini` (geminiService.ts:12-123). The whole body is a
`try`/`catch` whose `catch` returns the fallback literal, so the function is
total. A successfully parsed value is returned directly after the unchecked
`as AIAnalysisResult` cast (lines 97-99): no runtime shape validation
happens. The payload string only feeds the external call. -/
def analyzeImageWithGemini (_base64Image : Option String) (apiKey : Option String)
    (outcome : ServiceOutcome) : ParsedAnalysis :=
  match getAiClient apiKey with
  | Except.error _ => fallbackAnalysis
  | Except.ok _ =>
    match outcome with
    | ServiceOutcome.throwErr _ => fallbackAnalysis
    | ServiceOutcome.noText => fallbackAnalysis
    | ServiceOutcome.unparseable _ => fallbackAnalysis
    | ServiceOutcome.parsed v => v

/-- A parsed response in which every required field is absent: the runtime
value of `JSON.parse "\x7b\x7d"`. -/
def emptyParsed : ParsedAnalysis :=
  { objects := none
    peopleCount := none
    sceneType := none
    imageCategory := none
    dominantColors := none
    faceEmotion := none
    isSafe := none
    authenticity := none
    ocrText := none }

/-- A parsed response carrying only `objects`: syntactically valid JSON whose
shape misses every other required field. -/
def oneFieldParsed : ParsedAnalysis :=
  { emptyParsed with objects := some ["tree"] }

/-! ## MetadataExtractor (`src/services/imageService.ts`, `extractExifData`) -/

/-- The `ExifData` interface (types.ts): every field optional. -/
structure ExifData where
  make : Option String
  model : Option String
  dateTimeOriginal : Option String
  exposureTime : Option Rat
  fNumber : Option Rat
  iso : Option Int
  focalLength : Option Rat
  latitude : Option Rat
  longitude : Option Rat
  software : Option String
  width : Option Int
  height : Option Int
deriving Repr, DecidableEq

/-- The fields of the `exifr.parse` output object that `extractExifData`
reads (imageService.ts:17-30); each may be undefined in the library output. -/
structure ExifrOutput where
  Make : Option String
  Model : Option String
  DateTimeOriginal : Option String
  ExposureTime : Option Rat
  FNumber : Option Rat
  ISO : Option Int
  FocalLength : Option Rat
  latitude : Option Rat
  longitude : Option Rat
  Software : Option String
  ExifImageWidth : Option Int
  ExifImageHeight : Option Int
deriving Repr, DecidableEq

/-- Outcome of the external `exifr.parse` call (imageService.ts:9-13): it
either throws, or resolves with `undefined`/`null`, or resolves with an
output object. -/
inductive ExifrParseResult where
  | throwErr (msg : String)
  | ok (output : Option ExifrOutput)
deriving Repr, DecidableEq

/-- `extractExifData` (imageService.ts:7-35). The `fmt` argument models the
external `d => new Date(d).toLocaleString()` rendering applied to
`DateTimeOriginal` (line 20). The `catch` block returns `null` (line 33), as
does the `!output` guard (line 15); otherwise each field of the result is
copied independently from the library output. -/
def extractExifData (fmt : String → String) (r : ExifrParseResult) : Option ExifData :=
  match r with
  | ExifrParseResult.throwErr _ => none
  | ExifrParseResult.ok none => none
  | ExifrParseResult.ok (some output) =>
    some
      { make := output.Make
        model := output.Model
        dateTimeOriginal := output.DateTimeOriginal.map fmt
        exposureTime := output.ExposureTime
        fNumber := output.FNumber
        iso := output.ISO
        focalLength := output.FocalLength
        latitude := output.latitude
        longitude := output.longitude
        software := output.Software
        width := output.ExifImageWidth
        height := output.ExifImageHeight }

/-- An `exifr.parse` output carrying a latitude but no longitude. -/
def loneLatOutput : ExifrOutput :=
  { Make := none
    Model := none
    DateTimeOriginal := none
    ExposureTime := none
    FNumber := none
    ISO := none
    FocalLength := none
    latitude := some 37
    longitude := none
    Software := none
    ExifImageWidth := none
    ExifImageHeight := none }

/-! ## AssetEncoder (`src/services/imageService.ts`, `fileToBase64`) -/

/-- Outcome of the external `FileReader.readAsDataURL` round trip
(imageService.ts:66-80): the reader delivers a string result, a non-string
result, or an error event. -/
inductive ReadResult where
  | strResult (s : String)
  | nonString
  | readError (msg : String)
deriving Repr, DecidableEq

/-- Model of the JavaScript `String.prototype.split` on a single-character
separator, on the character list of the string. -/
def jsSplit (sep : Char) : List Char → List (List Char)
  | [] => [[]]
  | c :: cs =>
    if c = sep then [] :: jsSplit sep cs
    else
      match jsSplit sep cs with
      | [] => [[c]]
      | h :: t => (c :: h) :: t

/-- `fileToBase64` (imageService.ts:66-81): on a string result it resolves
with `result.split(',')[1]` (which is `undefined` when the string holds no
comma, hence the `Option`); a non-string result or a reader error rejects. -/
def fileToBase64 (r : ReadResult) : Except String (Option String) :=
  match r with
  | ReadResult.strResult s =>
    Except.ok (((jsSplit ',' s.data).get? 1).map List.asString)
  | ReadResult.nonString => Except.error "Failed to convert file to base64"
  | ReadResult.readError msg => Except.error msg

/-! ## ImageSanitizer (`src/services/imageService.ts`, `cleanImageMetadata`) -/

/-- Outcome of the external image decode started by `img.src = imageUrl`
(imageService.ts:43-62): either `onerror` fires or `onload` fires with the
decoded dimensions. -/
inductive ImgLoadResult where
  | loadError (msg : String)
  | loaded (width height : Nat)
deriving Repr, DecidableEq

/-- External canvas facts `cleanImageMetadata` depends on: the decode
outcome, whether `canvas.getContext('2d')` yields a context, and the value
handed to the `canvas.toBlob` callback (`null` when re-encoding yields no
bytes; a blob modelled by its byte string otherwise). -/
structure CleanEnv where
  load : ImgLoadResult
  ctxAvailable : Bool
  blobResult : Option String
deriving Repr, DecidableEq

/-- `cleanImageMetadata` (imageService.ts:41-64): rejects when decode fails
(line 61) or no raster context is available (line 51); otherwise resolves
with exactly the value the `toBlob` callback received (line 58) - in
particular it resolves with `none` when the callback got `null`. -/
def cleanImageMetadata (env : CleanEnv) (_imageUrl _format : String) :
    Except String (Option String) :=
  match env.load with
  | ImgLoadResult.loadError msg => Except.error msg
  | ImgLoadResult.loaded _ _ =>
    if env.ctxAvailable then Except.ok env.blobResult
    else Except.error "Could not get canvas context"

/-! ## Record ids: `Date.now().toString()` (App.tsx:34)

`Date.now()` is an external millisecond clock reading, modelled as a `Nat`
input; `Number.prototype.toString` renders it in decimal. The rendering is
given fuel-driven structural recursion so that concrete records evaluate by
`decide`/`rfl`. -/

/-- Decimal digit list of `n` (most significant first), with fuel. Any fuel
above `n` is sufficient. -/
def decDigitsAux : Nat → Nat → List Char
  | 0, _ => []
  | fuel + 1, n =>
    if n < 10 then [Nat.digitChar n]
    else decDigitsAux fuel (n / 10) ++ [Nat.digitChar (n % 10)]

/-- Decimal digit list of `n`, most significant digit first. -/
def decDigits (n : Nat) : List Char := decDigitsAux (n + 1) n

/-- Model of the JavaScript `Number.prototype.toString` (base 10) applied to
a `Date.now()` reading. -/
def jsNatToString (n : Nat) : String := (decDigits n).asString

/-! ## ProcessingOrchestrator (`src/App.tsx`) -/

/-- The `ProcessedImage` record (types.ts); the `File` object is represented
by its name, which is all the core reads from it (`data.file.name`,
App.tsx:90). -/
structure ProcessedImage where
  id : String
  file : String
  previewUrl : String
  exif : Option ExifData
  aiAnalysis : Option ParsedAnalysis
  isProcessing : Bool
  error : Option String
deriving Repr, DecidableEq

/-- The fresh record installed by `handleImageSelect` (App.tsx:33-41), with
`now` the `Date.now()` reading used for the id. -/
def mkRecord (now : Nat) (fileName previewUrl : String) : ProcessedImage :=
  { id := jsNatToString now
    file := fileName
    previewUrl := previewUrl
    exif := none
    aiAnalysis := none
    isProcessing := true
    error := none }

/-- The `setData` updater installed after metadata extraction
(App.tsx:49): merge the extraction result into whatever record is current. -/
def mergeExifUpdate (exifData : Option ExifData) :
    Option ProcessedImage → Option ProcessedImage
  | none => none
  | some prev => some { prev with exif := exifData }

/-- The `setData` updater installed when the analysis result arrives
(App.tsx:55-59): merge the result into whatever record is current and clear
the processing flag. It never compares the result's originating record id
with the current record's id. -/
def mergeAnalysisUpdate (aiResult : ParsedAnalysis) :
    Option ProcessedImage → Option ProcessedImage
  | none => none
  | some prev => some { prev with aiAnalysis := some aiResult, isProcessing := false }

/-- The `setData` updater installed by the `catch` block of
`handleImageSelect` (App.tsx:63-67). -/
def failureUpdate : Option ProcessedImage → Option ProcessedImage
  | none => none
  | some prev =>
    some { prev with isProcessing := false, error := some "Failed to process image fully." }

/-- The external outcomes one full run of `handleImageSelect` depends on. -/
structure PipelineEnv where
  exifr : ExifrParseResult
  read : ReadResult
  apiKey : Option String
  service : ServiceOutcome
deriving Repr, DecidableEq

/-- One uninterrupted run of `handleImageSelect` (App.tsx:29-69) on a fresh
record: install the record, merge the extraction result, then either hit the
`catch` block (only `fileToBase64` can throw inside the `try`, since
`extractExifData` and `analyzeImageWithGemini` are total) or merge the
analysis result. -/
def handleImageSelectRun (fmt : String → String) (env : PipelineEnv)
    (now : Nat) (fileName url : String) : Option ProcessedImage :=
  let st0 : Option ProcessedImage := some (mkRecord now fileName url)
  let st1 := mergeExifUpdate (extractExifData fmt env.exifr) st0
  match fileToBase64 env.read with
  | Except.error _ => failureUpdate st1
  | Except.ok b64 =>
    mergeAnalysisUpdate (analyzeImageWithGemini b64 env.apiKey env.service) st1

/-- The analysis result of an earlier record still in flight when a newer
record is active (used to exercise the merge updater). -/
def staleResult : ParsedAnalysis :=
  { objects := some ["surfboard", "wave"]
    peopleCount := some 1
    sceneType := some "Beach"
    imageCategory := some "Photo"
    dominantColors := some ["#0000FF"]
    faceEmotion := some "Happy"
    isSafe := some true
    authenticity := some
      { isLikelyEdited := some false
        reason := some "looks organic"
        score := some 88 }
    ocrText := some "" }

/-! ## Object-URL bookkeeping (`src/App.tsx`) -/

/-- User-level events of `App` that touch object URLs or the current record:
selecting a new image (App.tsx:29-43, which calls `URL.createObjectURL` and
installs a fresh record), pressing the discard button (App.tsx:343-350,
`setData(null)`), and a successful privacy-clean download (App.tsx:86-95,
which creates and immediately revokes the download URL). -/
inductive AppEvent where
  | selectImage (now : Nat) (fileName url : String)
  | discardImage
  | privacyDownload (blobUrl : String)
deriving Repr, DecidableEq

/-- Current record plus the object URLs created and revoked so far. -/
structure AppResources where
  data : Option ProcessedImage
  created : List String
  revoked : List String
deriving Repr, DecidableEq

/-- Effect of one event on the record and the URL ledger, read off
App.tsx: `selectImage` creates the preview URL and installs the new record
without revoking the previous record's preview URL; `discardImage` clears
the record without revoking; `privacyDownload` creates and revokes the
download URL (App.tsx:87,94) - the only `URL.revokeObjectURL` call in the
component. -/
def appStep (s : AppResources) : AppEvent → AppResources
  | AppEvent.selectImage now fileName url =>
    { s with created := s.created ++ [url], data := some (mkRecord now fileName url) }
  | AppEvent.discardImage => { s with data := none }
  | AppEvent.privacyDownload blobUrl =>
    { s with created := s.created ++ [blobUrl], revoked := s.revoked ++ [blobUrl] }

/-- Run a sequence of events from a state. -/
def appRun (s : AppResources) (evs : List AppEvent) : AppResources :=
  evs.foldl appStep s

/-- A session in which record `a` is superseded by record `b`, a
privacy-clean download succeeds, and the record is then discarded. -/
def leakTrace : List AppEvent :=
  [AppEvent.selectImage 1000 "a.jpg" "blob:a",
   AppEvent.selectImage 2000 "b.jpg" "blob:b",
   AppEvent.privacyDownload "blob:clean",
   AppEvent.discardImage]

/-! ## Privacy-clean handler (`src/App.tsx`, `handlePrivacyClean`) -/

/-- Observable effects of one `handlePrivacyClean` run (App.tsx:82-99):
the download triggered (if any, recorded by the `a.download` name), whether
the failure alert fired, and whether the download URL was revoked. -/
structure PrivacyEffects where
  downloadName : Option String
  alerted : Bool
  revokedDownloadUrl : Bool
deriving Repr, DecidableEq

/-- The no-effect outcome of `handlePrivacyClean`. -/
def noPrivacyEffects : PrivacyEffects :=
  { downloadName := none, alerted := false, revokedDownloadUrl := false }

/-- `handlePrivacyClean` (App.tsx:82-99): bail out silently when there is no
record or no preview URL (the JavaScript `!data?.previewUrl` guard also
rejects the empty string); alert only when `cleanImageMetadata` rejects;
silently do nothing when it resolves with `null`; otherwise download the
blob under a `clean_`-prefixed name and revoke the download URL. -/
def handlePrivacyClean (env : CleanEnv) (data : Option ProcessedImage) : PrivacyEffects :=
  match data with
  | none => noPrivacyEffects
  | some d =>
    if d.previewUrl = "" then noPrivacyEffects
    else
      match cleanImageMetadata env d.previewUrl "image/jpeg" with
      | Except.error _ => { downloadName := none, alerted := true, revokedDownloadUrl := false }
      | Except.ok none => noPrivacyEffects
      | Except.ok (some _) =>
        { downloadName := some ("clean_" ++ d.file), alerted := false, revokedDownloadUrl := true }

/-! ## Helper lemmas: decimal rendering -/

/-- Any two sufficient fuels render the same digit list. -/
theorem decDigitsAux_fuel (n : Nat) :
    ∀ f₁ f₂, n < f₁ → n < f₂ → decDigitsAux f₁ n = decDigitsAux f₂ n := by
  induction n using Nat.strong_induction_on with
  | _ n ih =>
    intro f₁ f₂ h₁ h₂
    match f₁, f₂ with
    | k₁ + 1, k₂ + 1 =>
      simp only [decDigitsAux]
      by_cases h : n < 10
      · rw [if_pos h, if_pos h]
      · rw [if_neg h, if_neg h]
        have hd : n / 10 < n := Nat.div_lt_self (by omega) (by omega)
        rw [ih (n / 10) hd k₁ k₂ (by omega) (by omega)]

/-- Rendering a one-digit number. -/
theorem decDigits_lt (n : Nat) (h : n < 10) : decDigits n = [Nat.digitChar n] := by
  simp only [decDigits, decDigitsAux]
  rw [if_pos h]

/-- Rendering a multi-digit number peels off the last digit. -/
theorem decDigits_ge (n : Nat) (h : 10 ≤ n) :
    decDigits n = decDigits (n / 10) ++ [Nat.digitChar (n % 10)] := by
  have hd : n / 10 < n := Nat.div_lt_self (by omega) (by omega)
  simp only [decDigits, decDigitsAux]
  rw [if_neg (by omega)]
  congr 1
  exact decDigitsAux_fuel (n / 10) n (n / 10 + 1) hd (Nat.lt_succ_self _)

/-- A decimal rendering is never empty. -/
theorem decDigits_ne_nil (n : Nat) : decDigits n ≠ [] := by
  by_cases h : n < 10
  · rw [decDigits_lt n h]; simp
  · rw [decDigits_ge n (by omega)]; simp

/-- `Nat.digitChar` separates the ten decimal digits. -/
theorem digitChar_fin_inj :
    ∀ a b : Fin 10, Nat.digitChar a.val = Nat.digitChar b.val → a = b := by decide

/-- `Nat.digitChar` is injective below 10. -/
theorem digitChar_inj_lt {a b : Nat} (ha : a < 10) (hb : b < 10)
    (h : Nat.digitChar a = Nat.digitChar b) : a = b :=
  congrArg Fin.val (digitChar_fin_inj ⟨a, ha⟩ ⟨b, hb⟩ h)

/-- Splitting equal lists that both end in a singleton. -/
theorem append_singleton_inj {α : Type} {l₁ l₂ : List α} {a b : α}
    (h : l₁ ++ [a] = l₂ ++ [b]) : l₁ = l₂ ∧ a = b := by
  have hlen : l₁.length = l₂.length := by
    have hl := congrArg List.length h
    simp only [List.length_append, List.length_cons, List.length_nil] at hl
    omega
  obtain ⟨h₁, h₂⟩ := List.append_inj h hlen
  refine ⟨h₁, ?_⟩
  simpa using h₂

/-- Decimal renderings of distinct naturals are distinct. -/
theorem decDigits_inj (n : Nat) : ∀ m, decDigits n = decDigits m → n = m := by
  induction n using Nat.strong_induction_on with
  | _ n ih =>
    intro m h
    by_cases hn : n < 10 <;> by_cases hm : m < 10
    · rw [decDigits_lt n hn, decDigits_lt m hm] at h
      simp only [List.cons.injEq, and_true] at h
      exact digitChar_inj_lt hn hm h
    · exfalso
      rw [decDigits_lt n hn, decDigits_ge m (by omega)] at h
      have hl := congrArg List.length h
      simp only [List.length_append, List.length_cons, List.length_nil] at hl
      have h0 : (decDigits (m / 10)).length = 0 := by omega
      exact decDigits_ne_nil (m / 10) (List.length_eq_zero.mp h0)
    · exfalso
      rw [decDigits_ge n (by omega), decDigits_lt m hm] at h
      have hl := congrArg List.length h
      simp only [List.length_append, List.length_cons, List.length_nil] at hl
      have h0 : (decDigits (n / 10)).length = 0 := by omega
      exact decDigits_ne_nil (n / 10) (List.length_eq_zero.mp h0)
    · rw [decDigits_ge n (by omega), decDigits_ge m (by omega)] at h
      obtain ⟨h₁, h₂⟩ := append_singleton_inj h
      have hdiv : n / 10 = m / 10 :=
        ih (n / 10) (Nat.div_lt_self (by omega) (by omega)) (m / 10) h₁
      have hmod : n % 10 = m % 10 :=
        digitChar_inj_lt (Nat.mod_lt _ (by omega)) (Nat.mod_lt _ (by omega)) h₂
      omega

/-- The modelled `Date.now().toString()` rendering is injective. -/
theorem jsNatToString_inj {n m : Nat} (h : jsNatToString n = jsNatToString m) : n = m :=
  decDigits_inj n m (congrArg String.data h)

/-! ## Helper lemmas: one `handleImageSelect` run -/

/-- When the encode step throws, the run ends in the `catch` updater. -/
theorem handleImageSelectRun_error (fmt : String → String) (env : PipelineEnv)
    (now : Nat) (fileName url : String) (e : String)
    (h : fileToBase64 env.read = Except.error e) :
    handleImageSelectRun fmt env now fileName url =
      failureUpdate (mergeExifUpdate (extractExifData fmt env.exifr)
        (some (mkRecord now fileName url))) := by
  unfold handleImageSelectRun
  rw [h]

/-- When the encode step resolves, the run merges the analysis result. -/
theorem handleImageSelectRun_ok (fmt : String → String) (env : PipelineEnv)
    (now : Nat) (fileName url : String) (b : Option String)
    (h : fileToBase64 env.read = Except.ok b) :
    handleImageSelectRun fmt env now fileName url =
      mergeAnalysisUpdate (analyzeImageWithGemini b env.apiKey env.service)
        (mergeExifUpdate (extractExifData fmt env.exifr)
          (some (mkRecord now fileName url))) := by
  unfold handleImageSelectRun
  rw [h]

/-! ## Claims -/

/-- Claim C1 (code_bug evidence): in the interleaving where record A
(created at t=1000) has its analysis still in flight while record B
(created at t=2000) is installed and has its metadata merged, the arrival of
A's analysis result applies the merge updater of App.tsx:55-59, which
attaches A's result to B's record (id "2000") instead of discarding it - the
updater performs no originating-id check, even though the two ids differ. -/
theorem stale_analysis_merged_into_new_record :
    mergeAnalysisUpdate staleResult
        (mergeExifUpdate none (some (mkRecord 2000 "b.jpg" "blob:b")))
      = some { mkRecord 2000 "b.jpg" "blob:b" with
                 aiAnalysis := some staleResult, isProcessing := false }
  ∧ (mkRecord 1000 "a.jpg" "blob:a").id ≠ (mkRecord 2000 "b.jpg" "blob:b").id := by
  decide

/-- Claim C2 (counterexample): a service response whose text parses to an
object missing every required field is returned as the analysis result, not
replaced by the fallback record - `analyzeImageWithGemini` performs no shape
validation after `JSON.parse`. -/
theorem missing_fields_not_fallback_cex :
    analyzeImageWithGemini none (some "key") (ServiceOutcome.parsed emptyParsed)
      = emptyParsed
  ∧ emptyParsed ≠ fallbackAnalysis
  ∧ emptyParsed.objects = none := by
  decide

/-- Claim C2 (amended): the raw response is parsed, and if the service
returns no text or parsing fails the call is treated as failed and the fixed
fallback record is returned; but a successfully parsed value is returned
as-is, without validation of the required fields. -/
theorem analyze_parse_gate_amended :
    (∀ b k, analyzeImageWithGemini b k ServiceOutcome.noText = fallbackAnalysis)
  ∧ (∀ b k t, analyzeImageWithGemini b k (ServiceOutcome.unparseable t) = fallbackAnalysis)
  ∧ (∀ b k v, getAiClient k = Except.ok () →
      analyzeImageWithGemini b k (ServiceOutcome.parsed v) = v) := by
  refine ⟨fun b k => ?_, fun b k t => ?_, fun b k v h => ?_⟩
  · cases hk : getAiClient k with
    | error e => simp [analyzeImageWithGemini, hk]
    | ok u => simp [analyzeImageWithGemini, hk]
  · cases hk : getAiClient k with
    | error e => simp [analyzeImageWithGemini, hk]
    | ok u => simp [analyzeImageWithGemini, hk]
  · simp [analyzeImageWithGemini, h]

/-- Witness for the amended C2 theorem at a concrete key and parsed value. -/
theorem analyze_parse_gate_amended_witness :
    analyzeImageWithGemini none (some "witness-key") (ServiceOutcome.parsed emptyParsed)
      = emptyParsed :=
  analyze_parse_gate_amended.2.2 none (some "witness-key") emptyParsed rfl

/-- Claim C3 (counterexample): an internal "invalid shape" condition is not
a failure for `analyzeImageWithGemini` - a parsed response carrying only the
`objects` field is returned unchanged, and it differs from the fixed
fallback record. -/
theorem invalid_shape_returned_cex :
    analyzeImageWithGemini none (some "token") (ServiceOutcome.parsed oneFieldParsed)
      = oneFieldParsed
  ∧ oneFieldParsed ≠ fallbackAnalysis
  ∧ oneFieldParsed.peopleCount = none := by
  decide

/-- Claim C3 (amended): the analysis operation never fails outward - it
always returns either the fixed fallback record or the parsed response
value; and on a missing credential, a thrown service call, empty response
text, or a parse failure, the result exactly equals the fixed fallback
record. (An invalid shape of a successfully parsed response is not detected
and therefore does not trigger the fallback.) -/
theorem analyze_never_fails_outward_amended :
    (∀ b k out, analyzeImageWithGemini b k out = fallbackAnalysis
       ∨ ∃ v, out = ServiceOutcome.parsed v ∧ analyzeImageWithGemini b k out = v)
  ∧ (∀ b k out,
      ((∃ e, getAiClient k = Except.error e)
        ∨ (∃ m, out = ServiceOutcome.throwErr m)
        ∨ out = ServiceOutcome.noText
        ∨ (∃ t, out = ServiceOutcome.unparseable t)) →
      analyzeImageWithGemini b k out = fallbackAnalysis) := by
  constructor
  · intro b k out
    cases hk : getAiClient k with
    | error e => left; simp [analyzeImageWithGemini, hk]
    | ok u =>
      cases out with
      | throwErr m => left; simp [analyzeImageWithGemini, hk]
      | noText => left; simp [analyzeImageWithGemini, hk]
      | unparseable t => left; simp [analyzeImageWithGemini, hk]
      | parsed v => right; exact ⟨v, rfl, by simp [analyzeImageWithGemini, hk]⟩
  · intro b k out h
    cases hk : getAiClient k with
    | error e => simp [analyzeImageWithGemini, hk]
    | ok u =>
      rcases h with ⟨e, he⟩ | ⟨m, rfl⟩ | rfl | ⟨t, rfl⟩
      · rw [hk] at he; exact Except.noConfusion he
      · simp [analyzeImageWithGemini, hk]
      · simp [analyzeImageWithGemini, hk]
      · simp [analyzeImageWithGemini, hk]

/-- Witness for the amended C3 theorem: an empty-text response yields
exactly the fallback record. -/
theorem analyze_never_fails_outward_amended_witness :
    analyzeImageWithGemini none none ServiceOutcome.noText = fallbackAnalysis :=
  analyze_never_fails_outward_amended.2 none none ServiceOutcome.noText
    (Or.inr (Or.inr (Or.inl rfl)))

/-- Claim C4 (counterexample): an asset whose parsed tags carry a latitude
but no longitude surfaces the latitude alone - the extraction does not
enforce the latitude-iff-longitude pairing. -/
theorem lone_latitude_surfaced_cex :
    (extractExifData id (ExifrParseResult.ok (some loneLatOutput))).map ExifData.latitude
      = some (some 37)
  ∧ (extractExifData id (ExifrParseResult.ok (some loneLatOutput))).map ExifData.longitude
      = some none := by
  decide

/-- Claim C4 (amended): latitude and longitude are copied independently from
the parser output - each is present in the metadata record exactly when it
is present in the parser output; so both are absent for assets without
geolocation tags, but an asset carrying only one coordinate surfaces that
one alone. -/
theorem geo_passthrough_amended :
    (∀ fmt o, ∃ e, extractExifData fmt (ExifrParseResult.ok (some o)) = some e
       ∧ e.latitude = o.latitude ∧ e.longitude = o.longitude)
  ∧ (∀ fmt m, extractExifData fmt (ExifrParseResult.throwErr m) = none)
  ∧ (∀ fmt, extractExifData fmt (ExifrParseResult.ok none) = none) :=
  ⟨fun _ _ => ⟨_, rfl, rfl, rfl⟩, fun _ _ => rfl, fun _ => rfl⟩

/-- Claim C5 (code_bug evidence): over a session in which record "a.jpg"
(preview URL "blob:a") is superseded by record "b.jpg", a privacy-clean
download succeeds and the record is then discarded, the only URL ever
revoked is the download URL - the preview URLs of the superseded and
discarded records are created but never released (release count 0, not 1). -/
theorem preview_url_never_revoked :
    (appRun ⟨none, [], []⟩ leakTrace).created.count "blob:a" = 1
  ∧ (appRun ⟨none, [], []⟩ leakTrace).created.count "blob:b" = 1
  ∧ (appRun ⟨none, [], []⟩ leakTrace).revoked.count "blob:a" = 0
  ∧ (appRun ⟨none, [], []⟩ leakTrace).revoked.count "blob:b" = 0
  ∧ (appRun ⟨none, [], []⟩ leakTrace).revoked = ["blob:clean"] := by
  decide

/-- Claim C6: a missing (or empty, which the `!apiKey` guard treats the
same) credential makes client construction throw, and a call to the
analysis operation never surfaces a missing-credential fault as its
outcome - the call returns the ordinary fallback record. -/
theorem credential_fault_at_construction :
    (∃ e, getAiClient none = Except.error e)
  ∧ (∃ e, getAiClient (some "") = Except.error e)
  ∧ (∀ b out, analyzeImageWithGemini b none out = fallbackAnalysis)
  ∧ (∀ b out, analyzeImageWithGemini b (some "") out = fallbackAnalysis) :=
  ⟨⟨_, rfl⟩, ⟨_, rfl⟩, fun _ _ => rfl, fun _ _ => rfl⟩

/-- Claim C7: a run of `handleImageSelect` always clears the processing
flag; it records the error detail with no analysis attached exactly when the
encode step (`fileToBase64`) throws; and when the encode step resolves, the
record completes with the analysis result (real or fallback) attached and no
error - so an AnalysisClient-internal failure never drives the degraded
transition. -/
theorem degraded_iff_encode_throws :
    ∀ fmt env now fileName url,
      (handleImageSelectRun fmt env now fileName url).map ProcessedImage.isProcessing
        = some false
    ∧ ((∃ e, fileToBase64 env.read = Except.error e) ↔
        (handleImageSelectRun fmt env now fileName url).map ProcessedImage.error
          = some (some "Failed to process image fully."))
    ∧ ((∃ e, fileToBase64 env.read = Except.error e) ↔
        (handleImageSelectRun fmt env now fileName url).map ProcessedImage.aiAnalysis
          = some none)
    ∧ (∀ b, fileToBase64 env.read = Except.ok b →
        (handleImageSelectRun fmt env now fileName url).map ProcessedImage.error = some none
        ∧ (handleImageSelectRun fmt env now fileName url).map ProcessedImage.aiAnalysis
            = some (some (analyzeImageWithGemini b env.apiKey env.service))) := by
  intro fmt env now fileName url
  cases hread : fileToBase64 env.read with
  | error e =>
    rw [handleImageSelectRun_error fmt env now fileName url e hread]
    refine ⟨?_, ⟨fun _ => ?_, fun _ => ⟨e, rfl⟩⟩, ⟨fun _ => ?_, fun _ => ⟨e, rfl⟩⟩, ?_⟩
    · simp [failureUpdate, mergeExifUpdate]
    · simp [failureUpdate, mergeExifUpdate]
    · simp [failureUpdate, mergeExifUpdate, mkRecord]
    · intro b hb
      exact Except.noConfusion hb
  | ok b =>
    rw [handleImageSelectRun_ok fmt env now fileName url b hread]
    refine ⟨?_, ⟨?_, ?_⟩, ⟨?_, ?_⟩, ?_⟩
    · simp [mergeAnalysisUpdate, mergeExifUpdate]
    · rintro ⟨e, he⟩
      exact Except.noConfusion he
    · intro hproj
      exfalso
      simp [mergeAnalysisUpdate, mergeExifUpdate, mkRecord] at hproj
    · rintro ⟨e, he⟩
      exact Except.noConfusion he
    · intro hproj
      exfalso
      simp [mergeAnalysisUpdate, mergeExifUpdate, mkRecord] at hproj
    · intro b' hb'
      cases hb'
      constructor
      · simp [mergeAnalysisUpdate, mergeExifUpdate, mkRecord]
      · simp [mergeAnalysisUpdate, mergeExifUpdate]

/-- Witness for C7: one degraded run (unreadable asset) records the error,
and one run whose service response is empty still completes with the
fallback record attached. -/
theorem degraded_iff_encode_throws_witness :
    (handleImageSelectRun id
        ⟨ExifrParseResult.ok none, ReadResult.nonString, some "key", ServiceOutcome.noText⟩
        1000 "a.jpg" "blob:a").map ProcessedImage.error
      = some (some "Failed to process image fully.")
  ∧ (handleImageSelectRun id
        ⟨ExifrParseResult.ok none, ReadResult.strResult "data:image/jpeg;base64,AAAA",
         some "key", ServiceOutcome.noText⟩
        1000 "a.jpg" "blob:a").map ProcessedImage.aiAnalysis
      = some (some fallbackAnalysis) := by
  constructor
  · exact (degraded_iff_encode_throws id
      ⟨ExifrParseResult.ok none, ReadResult.nonString, some "key", ServiceOutcome.noText⟩
      1000 "a.jpg" "blob:a").2.1.mp ⟨"Failed to convert file to base64", rfl⟩
  · exact ((degraded_iff_encode_throws id
      ⟨ExifrParseResult.ok none, ReadResult.strResult "data:image/jpeg;base64,AAAA",
       some "key", ServiceOutcome.noText⟩
      1000 "a.jpg" "blob:a").2.2.2 (some "AAAA") rfl).2

/-- Claim C8: metadata extraction never raises - a throwing parse and an
absent parser output are both reported as an absent result, and the result
can only be present when the parser produced an output object. -/
theorem extractExifData_never_raises :
    (∀ fmt m, extractExifData fmt (ExifrParseResult.throwErr m) = none)
  ∧ (∀ fmt, extractExifData fmt (ExifrParseResult.ok none) = none)
  ∧ (∀ fmt r, extractExifData fmt r = none ∨ ∃ o, r = ExifrParseResult.ok (some o)) := by
  refine ⟨fun _ _ => rfl, fun _ => rfl, fun fmt r => ?_⟩
  cases r with
  | throwErr m => exact Or.inl rfl
  | ok o =>
    cases o with
    | none => exact Or.inl rfl
    | some o => exact Or.inr ⟨o, rfl⟩

/-- Claim C9 (counterexample): two distinct record creations within the same
clock millisecond (`Date.now()` = 1000 for both) produce different records
that carry the same id - ids are not unique across creations. -/
theorem same_millisecond_id_collision_cex :
    mkRecord 1000 "a.jpg" "blob:a" ≠ mkRecord 1000 "b.jpg" "blob:b"
  ∧ (mkRecord 1000 "a.jpg" "blob:a").id = (mkRecord 1000 "b.jpg" "blob:b").id := by
  decide

/-- Claim C9 (amended): record creations at distinct clock readings are
assigned distinct ids (only same-millisecond creations collide), and every
updater of the pipeline preserves the current record's id. -/
theorem record_id_unique_amended :
    (∀ t₁ t₂ f₁ u₁ f₂ u₂, t₁ ≠ t₂ →
       (mkRecord t₁ f₁ u₁).id ≠ (mkRecord t₂ f₂ u₂).id)
  ∧ (∀ e s, (mergeExifUpdate e s).map ProcessedImage.id = s.map ProcessedImage.id)
  ∧ (∀ a s, (mergeAnalysisUpdate a s).map ProcessedImage.id = s.map ProcessedImage.id)
  ∧ (∀ s, (failureUpdate s).map ProcessedImage.id = s.map ProcessedImage.id) := by
  refine ⟨fun t₁ t₂ f₁ u₁ f₂ u₂ hne h => hne (jsNatToString_inj h), ?_, ?_, ?_⟩
  · intro e s; cases s <;> rfl
  · intro a s; cases s <;> rfl
  · intro s; cases s <;> rfl

/-- Witness for the amended C9 theorem: creations at t=1000 and t=2000 get
the distinct ids "1000" and "2000". -/
theorem record_id_unique_amended_witness :
    (mkRecord 1000 "a.jpg" "blob:a").id ≠ (mkRecord 2000 "b.jpg" "blob:b").id :=
  record_id_unique_amended.1 1000 2000 "a.jpg" "blob:a" "b.jpg" "blob:b" (by decide)

/-- Claim C10: when the raster re-serialization hands the blob callback
`null` (after a successful decode and context acquisition),
`cleanImageMetadata` resolves with an absent result rather than rejecting,
and `handlePrivacyClean` silently does nothing - no download and no alert;
moreover the alert fires only when `cleanImageMetadata` rejects. -/
theorem empty_reencode_silent_noop :
    (∀ env : CleanEnv, ∀ d w h, env.load = ImgLoadResult.loaded w h →
       env.ctxAvailable = true → env.blobResult = none →
       cleanImageMetadata env d.previewUrl "image/jpeg" = Except.ok none
       ∧ handlePrivacyClean env (some d) = noPrivacyEffects)
  ∧ (∀ env : CleanEnv, ∀ d, (handlePrivacyClean env (some d)).alerted = true →
       d.previewUrl ≠ ""
       ∧ ∃ e, cleanImageMetadata env d.previewUrl "image/jpeg" = Except.error e) := by
  constructor
  · intro env d w h hload hctx hblob
    have hc : cleanImageMetadata env d.previewUrl "image/jpeg" = Except.ok none := by
      simp [cleanImageMetadata, hload, hctx, hblob]
    refine ⟨hc, ?_⟩
    unfold handlePrivacyClean
    by_cases hp : d.previewUrl = ""
    · simp [hp]
    · simp [hp, hc]
  · intro env d halert
    unfold handlePrivacyClean at halert
    by_cases hp : d.previewUrl = ""
    · simp [hp, noPrivacyEffects] at halert
    · refine ⟨hp, ?_⟩
      cases hc : cleanImageMetadata env d.previewUrl "image/jpeg" with
      | error e => exact ⟨e, rfl⟩
      | ok ob =>
        exfalso
        cases ob with
        | none => simp [hp, hc, noPrivacyEffects] at halert
        | some blob => simp [hp, hc] at halert

/-- Witness for C10: with a decoded 4x3 image, an available context and a
`null` blob, the clean resolves absent and the handler is a silent no-op;
with a failing decode the handler alerts, and the alert case indeed comes
from a rejection. -/
theorem empty_reencode_silent_noop_witness :
    cleanImageMetadata ⟨ImgLoadResult.loaded 4 3, true, none⟩ "blob:a" "image/jpeg"
      = Except.ok none
  ∧ handlePrivacyClean ⟨ImgLoadResult.loaded 4 3, true, none⟩
      (some (mkRecord 1 "a.jpg" "blob:a")) = noPrivacyEffects
  ∧ ∃ e, cleanImageMetadata ⟨ImgLoadResult.loadError "decode failed", true, none⟩
      "blob:a" "image/jpeg" = Except.error e := by
  obtain ⟨h1, h2⟩ := empty_reencode_silent_noop.1
    ⟨ImgLoadResult.loaded 4 3, true, none⟩ (mkRecord 1 "a.jpg" "blob:a") 4 3 rfl rfl rfl
  refine ⟨h1, h2, ?_⟩
  exact (empty_reencode_silent_noop.2
    ⟨ImgLoadResult.loadError "decode failed", true, none⟩
    (mkRecord 1 "a.jpg" "blob:a") (by decide)).2

end AiMetaData
